import Mathlib

/-!
Shallow embedding of the cross-chain atomic-swap coordination code of the
disburse-network `evm-contracts` repository, and proofs about it.

The TypeScript sources embedded here are:
  tests/aptos-integration.ts   (verifySha1Hashes, createDestinationEscrow,
                                completeCrossChainSwap; an unnamed second
                                version of the same module applies keccak256
                                to the secret before using it as hashlock)
  tests/escrow-factory.ts      (getSrcDeployEvent poll-with-backoff,
                                CrossChainCoordinator.processCrossChainEvents)
  tests/create-order.ts        (createManualTimelocks, deployDst immutables)

External collaborators (Node's crypto SHA-1, ethers' keccak256, the chain
client used to submit transactions and fetch logs) are passed to the embedded
functions as explicit function arguments.  JavaScript strings are modelled as
lists of characters, JavaScript bigints as natural numbers.
-/

/-- JavaScript strings, modelled as lists of characters. -/
abbrev JStr := List Char

/-- One lowercase hexadecimal digit, the alphabet of Node's `digest('hex')`. -/
def isHexLowerDigit (c : Char) : Bool :=
  c == '0' || c == '1' || c == '2' || c == '3' || c == '4' || c == '5' ||
  c == '6' || c == '7' || c == '8' || c == '9' || c == 'a' || c == 'b' ||
  c == 'c' || c == 'd' || c == 'e' || c == 'f'

/-- Embedding of JavaScript `toLowerCase` on a single ASCII character. -/
def jsToLowerChar (c : Char) : Char :=
  if 'A' ≤ c ∧ c ≤ 'Z' then Char.ofNat (c.toNat + 32) else c

/-- Embedding of JavaScript `String.prototype.toLowerCase` (ASCII data only). -/
def jsToLower (s : JStr) : JStr := s.map jsToLowerChar

/-- JavaScript `s.startsWith(pat)`, with the pattern as first argument. -/
def jsStartsWith : JStr → JStr → Bool
  | [], _ => true
  | _ :: _, [] => false
  | p :: ps, c :: cs => p == c && jsStartsWith ps cs

/-- `s.replace(/^0x0x/, '0x')`: drop one redundant doubled scheme prefix. -/
def cleanDouble0x (s : JStr) : JStr :=
  if jsStartsWith ['0', 'x', '0', 'x'] s then s.drop 2 else s

/-- `CrossChainEventData` from tests/aptos-integration.ts.  The two `Sha1`
fields are the commitments relayed from the EVM event; `amount` is a bigint. -/
structure CrossChainEventData where
  receiverSha1 : JStr
  takerAssetSha1 : JStr
  amount : ℕ
  secret : JStr
  originalReceiverAddress : JStr
  originalTakerAssetAddress : JStr
deriving DecidableEq

/-- `'0x' + crypto.createHash('sha1').update(a).digest('hex')`.  The SHA-1
primitive lives in Node's crypto library and is passed in as `sha1hex`. -/
def commitSha1 (sha1hex : JStr → JStr) (a : JStr) : JStr :=
  '0' :: 'x' :: sha1hex a

/-- `AptosIntegration.verifySha1Hashes` from tests/aptos-integration.ts:
recompute both commitments from the original addresses, strip a doubled `0x`
from the relayed commitments, and compare case-insensitively. -/
def verifySha1Hashes (sha1hex : JStr → JStr) (e : CrossChainEventData) : Bool :=
  let expectedReceiverSha1 := commitSha1 sha1hex e.originalReceiverAddress
  let expectedTakerAssetSha1 := commitSha1 sha1hex e.originalTakerAssetAddress
  let cleanReceiverSha1 := cleanDouble0x e.receiverSha1
  let cleanTakerAssetSha1 := cleanDouble0x e.takerAssetSha1
  (jsToLower cleanReceiverSha1 == jsToLower expectedReceiverSha1) &&
  (jsToLower cleanTakerAssetSha1 == jsToLower expectedTakerAssetSha1)

/-- Value of one hexadecimal digit, as accepted by `Buffer.from(s, 'hex')`. -/
def hexVal (c : Char) : Option ℕ :=
  if c == '0' then some 0 else if c == '1' then some 1 else
  if c == '2' then some 2 else if c == '3' then some 3 else
  if c == '4' then some 4 else if c == '5' then some 5 else
  if c == '6' then some 6 else if c == '7' then some 7 else
  if c == '8' then some 8 else if c == '9' then some 9 else
  if c == 'a' || c == 'A' then some 10 else if c == 'b' || c == 'B' then some 11 else
  if c == 'c' || c == 'C' then some 12 else if c == 'd' || c == 'D' then some 13 else
  if c == 'e' || c == 'E' then some 14 else if c == 'f' || c == 'F' then some 15 else
  none

/-- `Buffer.from(s, 'hex')` as a list of byte values: consume digit pairs,
stopping at the first invalid pair or unpaired trailing digit. -/
def hexToBytes : JStr → List ℕ
  | hi :: lo :: rest =>
    match hexVal hi, hexVal lo with
    | some a, some b => (16 * a + b) :: hexToBytes rest
    | _, _ => []
  | _ => []

/-- JavaScript `s.replace('0x', '')`: remove the first occurrence of `0x`. -/
def removeFirst0x : JStr → JStr
  | [] => []
  | c :: cs => if jsStartsWith ['0', 'x'] (c :: cs) then cs.drop 1 else c :: removeFirst0x cs

/-- Floor base-2 logarithm by structural recursion on a fuel argument (so
that it computes by kernel reduction); agrees with `Nat.log2`. -/
def log2Fuel : ℕ → ℕ → ℕ
  | 0, _ => 0
  | fuel + 1, n => if 2 ≤ n then log2Fuel fuel (n / 2) + 1 else 0

/-- Floor base-2 logarithm. -/
def natLog2 (n : ℕ) : ℕ := log2Fuel n n

/-- Round `n` to the nearest multiple of `2 ^ e`, ties to the even multiple
(IEEE-754 round-to-nearest-even restricted to one binade of integers). -/
def roundNearestEven (n e : ℕ) : ℕ :=
  let q := n / 2 ^ e
  let r := n % 2 ^ e
  if 2 * r < 2 ^ e then 2 ^ e * q
  else if 2 ^ e < 2 * r then 2 ^ e * (q + 1)
  else if q % 2 = 0 then 2 ^ e * q else 2 ^ e * (q + 1)

/-- Embedding of JavaScript `Number(bigint)` on non-negative inputs: exact up
to `2 ^ 53`, round-to-nearest-even at the 53-bit significand above that. -/
def jsNumberOfBigint (n : ℕ) : ℕ :=
  if n < 2 ^ 53 then n else roundNearestEven n (natLog2 n - 52)

/-- Argument vector of the `escrow::new_from_resolver_entry` Aptos payload
built by `createDestinationEscrow`. -/
structure EscrowPayload where
  recipientAddress : JStr
  metadata : JStr
  amount : ℕ
  chainId : ℕ
  hash : List ℕ
deriving DecidableEq

/-- `Buffer.from(eventData.secret.replace('0x', ''), 'hex')`. -/
def secretBytes (e : CrossChainEventData) : List ℕ :=
  hexToBytes (removeFirst0x e.secret)

/-- The recipient field: the original receiver address, prefixing `0x` when
it is missing (tests/aptos-integration.ts lines 93-95). -/
def escrowRecipient (e : CrossChainEventData) : JStr :=
  if jsStartsWith ['0', 'x'] e.originalReceiverAddress then e.originalReceiverAddress
  else '0' :: 'x' :: e.originalReceiverAddress

/-- Payload built by `createDestinationEscrow` in tests/aptos-integration.ts:
`hashArray` there is `Array.from(secretBytes)`, the raw secret bytes, and the
amount is `Number(eventData.amount)`. -/
def escrowPayloadTests (e : CrossChainEventData) : EscrowPayload :=
  { recipientAddress := escrowRecipient e
    metadata := e.originalTakerAssetAddress
    amount := jsNumberOfBigint e.amount
    chainId := 10
    hash := secretBytes e }

/-- Payload built by `createDestinationEscrow` in the unnamed second version
of aptos-integration.ts: identical except that the hashlock is
`keccak256(secretBytes)`; ethers' keccak256 is passed in abstractly as a
function on byte lists. -/
def escrowPayloadKeccak (keccak256 : List ℕ → List ℕ) (e : CrossChainEventData) : EscrowPayload :=
  { recipientAddress := escrowRecipient e
    metadata := e.originalTakerAssetAddress
    amount := jsNumberOfBigint e.amount
    chainId := 10
    hash := keccak256 (secretBytes e) }

/-- Result of `createDestinationEscrow`: the transaction hash together with
the escrow address when it could be extracted from the transaction events. -/
structure CreateEscrowResult where
  txHash : JStr
  escrowAddress : Option JStr
deriving DecidableEq

/-- `createDestinationEscrow` from tests/aptos-integration.ts.  The chain
client is abstracted into `submitTransaction` (which may fail) and
`getEscrowObjectAddress` (which scans the transaction's events and may find
nothing).  The second component collects every payload submitted to the chain
during the call, so that "no transaction is submitted" is statable. -/
def createDestinationEscrowTests (sha1hex : JStr → JStr)
    (submitTransaction : EscrowPayload → Except String JStr)
    (getEscrowObjectAddress : JStr → Option JStr)
    (e : CrossChainEventData) : Except String CreateEscrowResult × List EscrowPayload :=
  if verifySha1Hashes sha1hex e = false then
    (.error "SHA1 hash verification failed - addresses do not match", [])
  else
    let createEscrowPayload := escrowPayloadTests e
    match submitTransaction createEscrowPayload with
    | .error err => (.error err, [createEscrowPayload])
    | .ok txHash =>
      (.ok { txHash := txHash, escrowAddress := getEscrowObjectAddress txHash },
       [createEscrowPayload])

/-- `createDestinationEscrow` from the unnamed second version of
aptos-integration.ts (keccak256 hashlock); otherwise as above. -/
def createDestinationEscrow (keccak256 : List ℕ → List ℕ) (sha1hex : JStr → JStr)
    (submitTransaction : EscrowPayload → Except String JStr)
    (getEscrowObjectAddress : JStr → Option JStr)
    (e : CrossChainEventData) : Except String CreateEscrowResult × List EscrowPayload :=
  if verifySha1Hashes sha1hex e = false then
    (.error "SHA1 hash verification failed - addresses do not match", [])
  else
    let createEscrowPayload := escrowPayloadKeccak keccak256 e
    match submitTransaction createEscrowPayload with
    | .error err => (.error err, [createEscrowPayload])
    | .ok txHash =>
      (.ok { txHash := txHash, escrowAddress := getEscrowObjectAddress txHash },
       [createEscrowPayload])

/-- Result shape of `completeCrossChainSwap`: optional fields stay absent on
the partial-success paths. -/
structure SwapResult where
  createTxHash : JStr
  withdrawTxHash : Option JStr
  escrowAddress : Option JStr
deriving DecidableEq

/-- `completeCrossChainSwap` from aptos-integration.ts: create the destination
escrow, then attempt the withdrawal; a missing escrow address skips the
withdrawal and a withdrawal failure is caught - both return partial success
with `withdrawTxHash` absent rather than raising. -/
def completeCrossChainSwap (keccak256 : List ℕ → List ℕ) (sha1hex : JStr → JStr)
    (submitTransaction : EscrowPayload → Except String JStr)
    (getEscrowObjectAddress : JStr → Option JStr)
    (withdrawFromDestinationEscrow : JStr → JStr → Except String JStr)
    (e : CrossChainEventData) : Except String SwapResult :=
  match (createDestinationEscrow keccak256 sha1hex submitTransaction
          getEscrowObjectAddress e).1 with
  | .error msg => .error msg
  | .ok created =>
    match created.escrowAddress with
    | none =>
      .ok { createTxHash := created.txHash, withdrawTxHash := none, escrowAddress := none }
    | some escrowAddress =>
      match withdrawFromDestinationEscrow escrowAddress e.secret with
      | .error _ =>
        .ok { createTxHash := created.txHash, withdrawTxHash := none,
              escrowAddress := some escrowAddress }
      | .ok withdrawTxHash =>
        .ok { createTxHash := created.txHash, withdrawTxHash := some withdrawTxHash,
              escrowAddress := some escrowAddress }

/-- The retry loop of `CrossChainCoordinator.processCrossChainEvents`
(escrow-factory.ts bundle, lines 374-398): `attemptOutcome i` is the outcome
of the i-th invocation of `completeCrossChainSwap`.  Returns the successful
result (if any) together with the number of invocations made. -/
def crossChainRetryLoop (attemptOutcome : ℕ → Except String SwapResult) :
    ℕ → ℕ → Option SwapResult × ℕ
  | 0, attempt => (none, attempt)
  | remaining + 1, attempt =>
    match attemptOutcome attempt with
    | .ok r => (some r, attempt + 1)
    | .error _ => crossChainRetryLoop attemptOutcome remaining (attempt + 1)

/-- `processCrossChainEvents`, reduced to its retry orchestration: run the
while-loop with the configured budget; if no attempt succeeded, fail
terminally.  The second component counts `completeCrossChainSwap` invocations. -/
def processCrossChainEvents (retryAttempts : ℕ)
    (attemptOutcome : ℕ → Except String SwapResult) :
    Except String SwapResult × ℕ :=
  match crossChainRetryLoop attemptOutcome retryAttempts 0 with
  | (some r, n) => (.ok r, n)
  | (none, n) => (.error "Cross-chain integration failed", n)

/-- The abi-decoded data of one `SrcEscrowCreated` log: the tuple `data.at(0)`
(the immutables) and the tuple `data.at(1)` (the destination complement), each
component read as a 256-bit word (a natural number). -/
structure RawLog where
  imm : List ℕ
  comp : List ℕ
deriving DecidableEq

/-- The `Sdk.Immutables` record assembled by `getSrcDeployEvent`. -/
structure SdkImmutables where
  orderHash : ℕ
  hashLock : ℕ
  maker : ℕ
  taker : ℕ
  token : ℕ
  amount : ℕ
  safetyDeposit : ℕ
  timeLocks : ℕ
deriving DecidableEq

/-- The `Sdk.DstImmutablesComplement` record assembled by `getSrcDeployEvent`. -/
structure SdkDstComplement where
  maker : ℕ
  amount : ℕ
  token : ℕ
  safetyDeposit : ℕ
deriving DecidableEq

/-- Decoding of the first matching log into the pair returned by
`getSrcDeployEvent` (escrow-factory.ts lines 103-120): `immutables[0..7]`
and `complement[0..3]`, repackaged through the Sdk constructors. -/
def decodeSrcEscrowLog (l : RawLog) : SdkImmutables × SdkDstComplement :=
  ({ orderHash := l.imm.getD 0 0
     hashLock := l.imm.getD 1 0
     maker := l.imm.getD 2 0
     taker := l.imm.getD 3 0
     token := l.imm.getD 4 0
     amount := l.imm.getD 5 0
     safetyDeposit := l.imm.getD 6 0
     timeLocks := l.imm.getD 7 0 },
   { maker := l.comp.getD 0 0
     amount := l.comp.getD 1 0
     token := l.comp.getD 2 0
     safetyDeposit := l.comp.getD 3 0 })

/-- The logs visible on one attempt: `getLogs` by block hash, falling back to
`getLogs` by block number when the first query returns nothing
(escrow-factory.ts lines 45-63). -/
def logsSeen (logsByHash logsByNumber : ℕ → List RawLog) (i : ℕ) : List RawLog :=
  match logsByHash i with
  | [] => logsByNumber i
  | l :: rest => l :: rest

/-- The `for (let i = 0; i < 5; i++)` poll loop of `getSrcDeployEvent`:
`logs i` is what the provider shows on attempt `i`.  Returns the decoded
result (or the terminal error after five empty attempts) together with the
number of attempts made. -/
def srcDeployLoop (logs : ℕ → List RawLog) :
    ℕ → ℕ → Except String (SdkImmutables × SdkDstComplement) × ℕ
  | 0, attempt =>
    (.error "Failed to get SrcEscrowCreated event logs after 5 attempts", attempt)
  | remaining + 1, attempt =>
    match logs attempt with
    | [] => srcDeployLoop logs remaining (attempt + 1)
    | l :: _ => (.ok (decodeSrcEscrowLog l), attempt + 1)

/-- `EscrowFactory.getSrcDeployEvent` from escrow-factory.ts, with the chain
provider abstracted into the two per-attempt log queries. -/
def getSrcDeployEvent (logsByHash logsByNumber : ℕ → List RawLog) :
    Except String (SdkImmutables × SdkDstComplement) :=
  (srcDeployLoop (logsSeen logsByHash logsByNumber) 5 0).1

/-- Number of poll attempts `getSrcDeployEvent` makes before returning. -/
def srcDeployAttempts (logsByHash logsByNumber : ℕ → List RawLog) : ℕ :=
  (srcDeployLoop (logsSeen logsByHash logsByNumber) 5 0).2

/-- The delays (in ms) inserted between consecutive attempts:
`(i + 2) * 1000` after each failed attempt `i < 4` (escrow-factory.ts
lines 127-131). -/
def srcRetryDelays : List ℕ :=
  (List.range 4).map (fun i => (i + 2) * 1000)

/-- `createManualTimelocks` from create-order.ts lines 53-84: the `deployedAt`
timestamp goes into the low 32 bits and the seven fixed offsets into the
successive 32-bit lanes of a single wide integer, combined with `|`. -/
def createManualTimelocks (deployedAt : ℕ) : ℕ :=
  let srcWithdrawal : ℕ := 10
  let srcPublicWithdrawal : ℕ := 20
  let srcCancellation : ℕ := 121
  let srcPublicCancellation : ℕ := 122
  let dstWithdrawal : ℕ := 10
  let dstPublicWithdrawal : ℕ := 100
  let dstCancellation : ℕ := 101
  let t0 := deployedAt
  let t1 := t0 ||| (srcWithdrawal <<< 32)
  let t2 := t1 ||| (srcPublicWithdrawal <<< 64)
  let t3 := t2 ||| (srcCancellation <<< 96)
  let t4 := t3 ||| (srcPublicCancellation <<< 128)
  let t5 := t4 ||| (dstWithdrawal <<< 160)
  let t6 := t5 ||| (dstPublicWithdrawal <<< 192)
  let t7 := t6 ||| (dstCancellation <<< 224)
  t7

/-- The fields of the fusion-order acceptance event that `deployDst` reads
when assembling the destination immutables (create-order.ts lines 621-630). -/
structure FusionOrderEventData where
  hash : ℕ
  owner : ℕ
  destinationAsset : ℕ
  currentPrice : ℕ
  auctionStartTime : ℕ
deriving DecidableEq

/-- The `Immutables` struct passed to `createDstEscrow` on the destination
leg. -/
structure DstImmutables where
  orderHash : ℕ
  hashlock : ℕ
  maker : ℕ
  taker : ℕ
  token : ℕ
  amount : ℕ
  safetyDeposit : ℕ
  timelocks : ℕ
deriving DecidableEq

/-- The immutables array built by `deployDst` (create-order.ts lines 621-630):
the timelocks are `createManualTimelocks(escrowEventData.fusionOrder.auctionStartTime)`
and the safety deposit is `parseEther('0.00001')` = 10^13 wei. -/
def deployDstImmutables (resolverAddress : ℕ) (fusionOrder : FusionOrderEventData) :
    DstImmutables :=
  { orderHash := fusionOrder.hash
    hashlock := fusionOrder.hash
    maker := fusionOrder.owner
    taker := resolverAddress
    token := fusionOrder.destinationAsset
    amount := fusionOrder.currentPrice
    safetyDeposit := 10 ^ 13
    timelocks := createManualTimelocks fusionOrder.auctionStartTime }

/-- Modelled from the spec: the Auction Pricer `currentAmount` (section 4.2);
the implementation lives in the `fusion_order` Move module, which is not part
of this repository's sources - only its parameters and events appear in
create-order.ts.  `amount = max(min, initial - decayPerSecond * elapsedSeconds)`. -/
def currentAmount (initial minAmount decayPerSecond elapsedSeconds : ℚ) : ℚ :=
  max minAmount (initial - decayPerSecond * elapsedSeconds)

/-! Concrete inputs used by the closed theorems and witnesses below.  The
SHA-1 stand-in `stubSha1` is a fixed function with lowercase-hex output, as
the commitment round-trip properties hold for every such digest function. -/

/-- A stand-in digest function with lowercase-hex output. -/
def stubSha1 : JStr → JStr := fun _ => ['d', 'a']

/-- An event whose commitments match `stubSha1` and whose secret is the four
bytes `0x01020304`. -/
def matchingEvent : CrossChainEventData :=
  { receiverSha1 := ['0', 'x', 'd', 'a']
    takerAssetSha1 := ['0', 'x', 'd', 'a']
    amount := 1000
    secret := ['0', 'x', '0', '1', '0', '2', '0', '3', '0', '4']
    originalReceiverAddress := ['0', 'x', 'a', 'b']
    originalTakerAssetAddress := ['0', 'x', 'a'] }

/-- An event whose receiver commitment does not match `stubSha1`. -/
def mismatchEvent : CrossChainEventData :=
  { receiverSha1 := ['0', 'x', 'b', 'b']
    takerAssetSha1 := ['0', 'x', 'd', 'a']
    amount := 5
    secret := ['0', 'x', '0', '1']
    originalReceiverAddress := ['0', 'x', 'a', 'b']
    originalTakerAssetAddress := ['0', 'x', 'a'] }

/-- An event carrying a doubled `0x` prefix on the receiver commitment and an
uppercase-hex taker-asset commitment, both otherwise matching `stubSha1`. -/
def toleratedFormsEvent : CrossChainEventData :=
  { receiverSha1 := ['0', 'x', '0', 'x', 'd', 'a']
    takerAssetSha1 := ['0', 'x', 'D', 'A']
    amount := 5
    secret := ['0', 'x', '0', '1']
    originalReceiverAddress := ['0', 'x', 'a', 'b']
    originalTakerAssetAddress := ['0', 'x', 'a'] }

/-- A matching event whose amount 2^53 + 1 exceeds the exact double range. -/
def hugeAmountEvent : CrossChainEventData :=
  { receiverSha1 := ['0', 'x', 'd', 'a']
    takerAssetSha1 := ['0', 'x', 'd', 'a']
    amount := 2 ^ 53 + 1
    secret := ['0', 'x', '0', '1']
    originalReceiverAddress := ['0', 'x', 'a', 'b']
    originalTakerAssetAddress := ['0', 'x', 'a'] }

/-- The fusion-order event data used to evaluate `deployDst`'s timelock
anchoring: its source-chain auction start time is 1700000000. -/
def sampleFusionOrder : FusionOrderEventData :=
  { hash := 111
    owner := 222
    destinationAsset := 333
    currentPrice := 100
    auctionStartTime := 1700000000 }

/-- A single decoded `SrcEscrowCreated` log used by the poll-loop witness. -/
def sampleRawLog : RawLog :=
  { imm := [1, 2, 3, 4, 5, 6, 7, 8], comp := [9, 10, 11, 12] }

/-! Helper lemmas about the commitment codec strings. -/

lemma hexLowerDigit_facts (c : Char) (h : isHexLowerDigit c = true) :
    jsToLowerChar c = c ∧ ('x' == c) = false := by
  simp only [isHexLowerDigit, Bool.or_eq_true, beq_iff_eq] at h
  rcases h with ((((((((((((((rfl|rfl)|rfl)|rfl)|rfl)|rfl)|rfl)|rfl)|rfl)|rfl)|rfl)|rfl)|rfl)|rfl)|rfl)|rfl <;>
    exact ⟨by decide, by decide⟩

lemma jsToLower_commit (sha1hex : JStr → JStr)
    (hhex : ∀ s c, c ∈ sha1hex s → isHexLowerDigit c = true) (a : JStr) :
    jsToLower (commitSha1 sha1hex a) = commitSha1 sha1hex a := by
  unfold commitSha1 jsToLower
  simp only [List.map_cons]
  rw [show jsToLowerChar '0' = '0' from by decide, show jsToLowerChar 'x' = 'x' from by decide]
  congr 2
  have hpt : ∀ c ∈ sha1hex a, jsToLowerChar c = id c := fun c hc =>
    (hexLowerDigit_facts c (hhex a c hc)).1
  exact (List.map_congr_left hpt).trans (List.map_id _)

lemma not_prefix_0x_of_hex (d : JStr) (h : ∀ c ∈ d, isHexLowerDigit c = true) :
    jsStartsWith ['0', 'x'] d = false := by
  match d with
  | [] => rfl
  | [c] => simp [jsStartsWith]
  | c :: c2 :: rest =>
    have h2 := (hexLowerDigit_facts c2 (h c2 (by simp))).2
    simp [jsStartsWith, h2]

lemma cleanDouble0x_commit (sha1hex : JStr → JStr)
    (hhex : ∀ s c, c ∈ sha1hex s → isHexLowerDigit c = true) (a : JStr) :
    cleanDouble0x (commitSha1 sha1hex a) = commitSha1 sha1hex a := by
  have hnp : jsStartsWith ['0', 'x', '0', 'x'] (commitSha1 sha1hex a) = false := by
    unfold commitSha1
    simp [jsStartsWith, not_prefix_0x_of_hex (sha1hex a) (hhex a)]
  simp [cleanDouble0x, hnp]

lemma startsWith_0x0x_structure (s : JStr)
    (h : jsStartsWith ['0', 'x', '0', 'x'] s = true) :
    ∃ rest, s = '0' :: 'x' :: '0' :: 'x' :: rest := by
  match s with
  | [] => simp [jsStartsWith] at h
  | [c1] => simp [jsStartsWith] at h
  | [c1, c2] => simp [jsStartsWith] at h
  | [c1, c2, c3] => simp [jsStartsWith] at h
  | c1 :: c2 :: c3 :: c4 :: rest =>
    simp only [jsStartsWith, Bool.and_eq_true, beq_iff_eq] at h
    obtain ⟨rfl, rfl, rfl, rfl, -⟩ := h
    exact ⟨rest, rfl⟩

lemma commit_match_tolerant (sha1hex : JStr → JStr)
    (hhex : ∀ s c, c ∈ sha1hex s → isHexLowerDigit c = true) (s a : JStr)
    (hs : s = commitSha1 sha1hex a
        ∨ s = '0' :: 'x' :: commitSha1 sha1hex a
        ∨ jsToLower s = commitSha1 sha1hex a) :
    (jsToLower (cleanDouble0x s) == jsToLower (commitSha1 sha1hex a)) = true := by
  rw [jsToLower_commit sha1hex hhex a]
  rcases hs with rfl | rfl | hlow
  · rw [cleanDouble0x_commit sha1hex hhex a, jsToLower_commit sha1hex hhex a]
    exact beq_self_eq_true _
  · have hclean : cleanDouble0x ('0' :: 'x' :: commitSha1 sha1hex a)
        = commitSha1 sha1hex a := by
      simp [cleanDouble0x, commitSha1, jsStartsWith]
    rw [hclean, jsToLower_commit sha1hex hhex a]
    exact beq_self_eq_true _
  · have hclean : cleanDouble0x s = s := by
      unfold cleanDouble0x
      rw [if_neg]
      intro hp
      obtain ⟨rest, rfl⟩ := startsWith_0x0x_structure s (by exact_mod_cast hp)
      rw [show jsToLower ('0' :: 'x' :: '0' :: 'x' :: rest)
            = '0' :: 'x' :: '0' :: 'x' :: jsToLower rest from by
          simp [jsToLower, jsToLowerChar]] at hlow
      unfold commitSha1 at hlow
      have hsha : sha1hex a = '0' :: 'x' :: jsToLower rest := by
        injection hlow with h1 h2
        injection h2 with h3 h4
        exact h4.symm
      have hx : ('x' : Char) ∈ sha1hex a := by rw [hsha]; simp
      have := hhex a 'x' hx
      simp [isHexLowerDigit] at this
    rw [hclean, hlow]
    exact beq_self_eq_true _

/-! Helper lemmas about the retry loop, the timelock packing, the poll loop,
and the Number conversion. -/

lemma crossChainRetryLoop_all_error (attemptOutcome : ℕ → Except String SwapResult)
    (h : ∀ i, ∃ msg, attemptOutcome i = .error msg) :
    ∀ fuel start, crossChainRetryLoop attemptOutcome fuel start = (none, start + fuel) := by
  intro fuel
  induction fuel with
  | zero => intro start; simp [crossChainRetryLoop]
  | succ n ih =>
    intro start
    obtain ⟨msg, hm⟩ := h start
    rw [crossChainRetryLoop, hm, ih (start + 1),
      show start + 1 + n = start + (n + 1) from by omega]

lemma completeCrossChainSwap_eq (keccak256 : List ℕ → List ℕ) (sha1hex : JStr → JStr)
    (submitTransaction : EscrowPayload → Except String JStr)
    (getEscrowObjectAddress : JStr → Option JStr)
    (withdrawFromDestinationEscrow : JStr → JStr → Except String JStr)
    (e : CrossChainEventData) (created : CreateEscrowResult)
    (hc : (createDestinationEscrow keccak256 sha1hex submitTransaction
            getEscrowObjectAddress e).1 = .ok created) :
    completeCrossChainSwap keccak256 sha1hex submitTransaction getEscrowObjectAddress
      withdrawFromDestinationEscrow e =
    match created.escrowAddress with
    | none => .ok { createTxHash := created.txHash, withdrawTxHash := none,
                    escrowAddress := none }
    | some escrowAddress =>
      match withdrawFromDestinationEscrow escrowAddress e.secret with
      | .error _ => .ok { createTxHash := created.txHash, withdrawTxHash := none,
                          escrowAddress := some escrowAddress }
      | .ok w => .ok { createTxHash := created.txHash, withdrawTxHash := some w,
                       escrowAddress := some escrowAddress } := by
  unfold completeCrossChainSwap
  rw [hc]

lemma createManualTimelocks_low32 (t : ℕ) :
    createManualTimelocks t % 2 ^ 32 = t % 2 ^ 32 := by
  unfold createManualTimelocks
  apply Nat.eq_of_testBit_eq
  intro i
  simp only [Nat.testBit_mod_two_pow, Nat.testBit_lor, Nat.testBit_shiftLeft]
  rcases Nat.lt_or_ge i 32 with hi | hi
  · have h1 : ¬ 32 ≤ i := by omega
    have h2 : ¬ 64 ≤ i := by omega
    have h3 : ¬ 96 ≤ i := by omega
    have h4 : ¬ 128 ≤ i := by omega
    have h5 : ¬ 160 ≤ i := by omega
    have h6 : ¬ 192 ≤ i := by omega
    have h7 : ¬ 224 ≤ i := by omega
    simp [hi, h1, h2, h3, h4, h5, h6, h7]
  · have h1 : ¬ i < 32 := by omega
    simp [h1]

lemma lor_shiftLeft_eq_add {a c b : ℕ} (h : a < 2 ^ b) :
    a ||| (c <<< b) = 2 ^ b * c + a := by
  apply Nat.eq_of_testBit_eq
  intro j
  rw [Nat.testBit_mul_pow_two_add c h j]
  simp only [Nat.testBit_lor, Nat.testBit_shiftLeft]
  by_cases hj : j < b
  · have hb : ¬ b ≤ j := by omega
    simp [hj, hb]
  · have hb : b ≤ j := by omega
    have ha : Nat.testBit a j = false :=
      Nat.testBit_lt_two_pow (lt_of_lt_of_le h (Nat.pow_le_pow_right (by norm_num) hb))
    simp [hj, hb, ha]

lemma createManualTimelocks_closed (t : ℕ) (h : t < 2 ^ 32) :
    createManualTimelocks t =
      t + (2 ^ 32 * 10 + 2 ^ 64 * 20 + 2 ^ 96 * 121 + 2 ^ 128 * 122
        + 2 ^ 160 * 10 + 2 ^ 192 * 100 + 2 ^ 224 * 101) := by
  unfold createManualTimelocks
  dsimp only
  rw [lor_shiftLeft_eq_add h,
      lor_shiftLeft_eq_add (show 2 ^ 32 * 10 + t < 2 ^ 64 from by omega),
      lor_shiftLeft_eq_add (show 2 ^ 64 * 20 + (2 ^ 32 * 10 + t) < 2 ^ 96 from by omega),
      lor_shiftLeft_eq_add (show 2 ^ 96 * 121 + (2 ^ 64 * 20 + (2 ^ 32 * 10 + t)) < 2 ^ 128
        from by omega),
      lor_shiftLeft_eq_add (show 2 ^ 128 * 122 + (2 ^ 96 * 121 + (2 ^ 64 * 20 + (2 ^ 32 * 10 + t)))
        < 2 ^ 160 from by omega),
      lor_shiftLeft_eq_add (show 2 ^ 160 * 10 + (2 ^ 128 * 122 + (2 ^ 96 * 121 + (2 ^ 64 * 20
        + (2 ^ 32 * 10 + t)))) < 2 ^ 192 from by omega),
      lor_shiftLeft_eq_add (show 2 ^ 192 * 100 + (2 ^ 160 * 10 + (2 ^ 128 * 122 + (2 ^ 96 * 121
        + (2 ^ 64 * 20 + (2 ^ 32 * 10 + t))))) < 2 ^ 224 from by omega)]
  ring

lemma srcDeployLoop_skip (logs : ℕ → List RawLog) (fuel i : ℕ) (h : logs i = []) :
    srcDeployLoop logs (fuel + 1) i = srcDeployLoop logs fuel (i + 1) := by
  rw [srcDeployLoop, h]

lemma srcDeployLoop_hit (logs : ℕ → List RawLog) (fuel i : ℕ) (l : RawLog)
    (rest : List RawLog) (h : logs i = l :: rest) :
    srcDeployLoop logs (fuel + 1) i = (.ok (decodeSrcEscrowLog l), i + 1) := by
  rw [srcDeployLoop, h]

lemma srcDeployLoop_attempts_le (logs : ℕ → List RawLog) :
    ∀ fuel i, (srcDeployLoop logs fuel i).2 ≤ i + fuel := by
  intro fuel
  induction fuel with
  | zero => intro i; simp [srcDeployLoop]
  | succ n ih =>
    intro i
    rcases hl : logs i with _ | ⟨l, rest⟩
    · rw [srcDeployLoop_skip logs n i hl]
      have := ih (i + 1)
      omega
    · rw [srcDeployLoop_hit logs n i l rest hl]
      simp

lemma srcDeployLoop_first_hit (logs : ℕ → List RawLog) (l : RawLog) (rest : List RawLog) :
    ∀ (k i fuel : ℕ), k < fuel →
      (∀ j, j < k → logs (i + j) = []) →
      logs (i + k) = l :: rest →
      srcDeployLoop logs fuel i = (.ok (decodeSrcEscrowLog l), i + k + 1) := by
  intro k
  induction k with
  | zero =>
    intro i fuel hf hempty hhit
    match fuel, hf with
    | m + 1, _ =>
      rw [srcDeployLoop_hit logs m i l rest (by simpa using hhit)]
  | succ n ih =>
    intro i fuel hf hempty hhit
    match fuel, hf with
    | m + 1, hf =>
      have h0 : logs i = [] := by simpa using hempty 0 (by omega)
      rw [srcDeployLoop_skip logs m i h0]
      have hrec := ih (i + 1) m (by omega)
        (fun j hj => by
          have hsh : i + 1 + j = i + (j + 1) := by omega
          rw [hsh]
          exact hempty (j + 1) (by omega))
        (by
          have hsh : i + 1 + n = i + (n + 1) := by omega
          rw [hsh]
          exact hhit)
      rw [hrec]
      have hsh2 : i + 1 + n + 1 = i + (n + 1) + 1 := by omega
      rw [hsh2]

lemma srcDeployLoop_all_empty (logs : ℕ → List RawLog) :
    ∀ fuel i, (∀ j, j < fuel → logs (i + j) = []) →
      srcDeployLoop logs fuel i =
        (.error "Failed to get SrcEscrowCreated event logs after 5 attempts", i + fuel) := by
  intro fuel
  induction fuel with
  | zero => intro i _; simp [srcDeployLoop]
  | succ n ih =>
    intro i hempty
    have h0 : logs i = [] := by simpa using hempty 0 (by omega)
    rw [srcDeployLoop_skip logs n i h0]
    rw [ih (i + 1) (fun j hj => by
      have hsh : i + 1 + j = i + (j + 1) := by omega
      rw [hsh]
      exact hempty (j + 1) (by omega))]
    have hsh2 : i + 1 + n = i + (n + 1) := by omega
    rw [hsh2]

lemma log2Fuel_eq (fuel : ℕ) : ∀ n, n ≤ fuel → log2Fuel fuel n = Nat.log2 n := by
  induction fuel with
  | zero =>
    intro n hn
    have hz : n = 0 := by omega
    subst hz
    rw [log2Fuel, Nat.log2]
    simp
  | succ m ih =>
    intro n hn
    rw [log2Fuel, Nat.log2]
    by_cases h2 : 2 ≤ n
    · rw [if_pos h2, if_pos h2, ih (n / 2) (by omega)]
    · rw [if_neg h2, if_neg h2]

lemma natLog2_eq (n : ℕ) : natLog2 n = Nat.log2 n := log2Fuel_eq n n le_rfl

lemma natLog2_bounds (n : ℕ) (h : 1 ≤ n) :
    2 ^ natLog2 n ≤ n ∧ n < 2 ^ (natLog2 n + 1) := by
  rw [natLog2_eq]
  exact ⟨Nat.log2_self_le (by omega), Nat.lt_log2_self⟩

lemma roundNE_cases (n e : ℕ) :
    roundNearestEven n e = 2 ^ e * (n / 2 ^ e) ∨
    roundNearestEven n e = 2 ^ e * (n / 2 ^ e + 1) := by
  unfold roundNearestEven
  dsimp only
  by_cases h1 : 2 * (n % 2 ^ e) < 2 ^ e
  · left; rw [if_pos h1]
  · rw [if_neg h1]
    by_cases h2 : 2 ^ e < 2 * (n % 2 ^ e)
    · right; rw [if_pos h2]
    · rw [if_neg h2]
      by_cases h3 : n / 2 ^ e % 2 = 0
      · left; rw [if_pos h3]
      · right; rw [if_neg h3]

lemma roundNE_dist (n e : ℕ) :
    2 * ((n - roundNearestEven n e) + (roundNearestEven n e - n)) ≤ 2 ^ e := by
  have hP : 0 < 2 ^ e := Nat.two_pow_pos e
  have hdm := Nat.div_add_mod n (2 ^ e)
  have hr : n % 2 ^ e < 2 ^ e := Nat.mod_lt n hP
  unfold roundNearestEven
  dsimp only
  by_cases h1 : 2 * (n % 2 ^ e) < 2 ^ e
  · rw [if_pos h1]
    omega
  · rw [if_neg h1]
    have hmul : 2 ^ e * (n / 2 ^ e + 1) = 2 ^ e * (n / 2 ^ e) + 2 ^ e := by ring
    by_cases h2 : 2 ^ e < 2 * (n % 2 ^ e)
    · rw [if_pos h2, hmul]
      omega
    · rw [if_neg h2]
      by_cases h3 : n / 2 ^ e % 2 = 0
      · rw [if_pos h3]
        omega
      · rw [if_neg h3, hmul]
        omega

/-! Claim theorems. -/

/-- C1: evaluated at a concrete `CrossChainEventData` whose commitments
verify and whose secret is `0x01020304`, the `createDestinationEscrow` of
tests/aptos-integration.ts submits as the `escrow::new_from_resolver_entry`
hash argument the raw secret bytes `[1, 2, 3, 4]` themselves - not a hash of
them - while the unnamed second version of the same module submits
`keccak256` of those bytes; so the named tests module violates the claimed
`hash = keccak256(secret)` exactly where the unnamed version satisfies it. -/
theorem c1_destination_hashlock_raw_secret_vs_keccak :
    verifySha1Hashes stubSha1 matchingEvent = true
    ∧ secretBytes matchingEvent = [1, 2, 3, 4]
    ∧ (createDestinationEscrowTests stubSha1 (fun _ => .ok ['h']) (fun _ => none)
        matchingEvent).2 =
      [{ recipientAddress := ['0', 'x', 'a', 'b'], metadata := ['0', 'x', 'a'],
         amount := 1000, chainId := 10, hash := [1, 2, 3, 4] }]
    ∧ (∀ keccak256 : List ℕ → List ℕ,
        (createDestinationEscrow keccak256 stubSha1 (fun _ => .ok ['h']) (fun _ => none)
          matchingEvent).2 =
        [{ recipientAddress := ['0', 'x', 'a', 'b'], metadata := ['0', 'x', 'a'],
           amount := 1000, chainId := 10, hash := keccak256 [1, 2, 3, 4] }]) :=
  ⟨by decide, by decide, by decide, fun keccak256 => rfl⟩

/-- C2: whenever SHA-1 verification fails, both versions of
`createDestinationEscrow` reject with the mismatch error and submit no chain
transaction at all - the submitted-payload log of the call is empty, so the
chain-client state is untouched. -/
theorem c2_mismatch_rejected_without_submission (sha1hex : JStr → JStr)
    (keccak256 : List ℕ → List ℕ)
    (submitTransaction : EscrowPayload → Except String JStr)
    (getEscrowObjectAddress : JStr → Option JStr)
    (e : CrossChainEventData)
    (h : verifySha1Hashes sha1hex e = false) :
    createDestinationEscrow keccak256 sha1hex submitTransaction getEscrowObjectAddress e =
      (.error "SHA1 hash verification failed - addresses do not match", [])
    ∧ createDestinationEscrowTests sha1hex submitTransaction getEscrowObjectAddress e =
      (.error "SHA1 hash verification failed - addresses do not match", []) := by
  constructor <;> simp [createDestinationEscrow, createDestinationEscrowTests, h]

theorem c2_mismatch_rejected_witness :
    verifySha1Hashes stubSha1 mismatchEvent = false
    ∧ createDestinationEscrow (fun l => l) stubSha1 (fun _ => .ok ['h']) (fun _ => none)
        mismatchEvent =
      (.error "SHA1 hash verification failed - addresses do not match", []) :=
  ⟨by decide,
   (c2_mismatch_rejected_without_submission stubSha1 (fun l => l) (fun _ => .ok ['h'])
     (fun _ => none) mismatchEvent (by decide)).1⟩

/-- C3 counterexample: the claim that a SHA-1 mismatch short-circuits the
retry orchestration is false.  With retry budget 3, an event whose receiver
commitment mismatches makes `completeCrossChainSwap` fail with the mismatch
error, yet `processCrossChainEvents` invokes `completeCrossChainSwap` all 3
times - the non-retryable failure is re-tried and consumes the whole budget. -/
theorem c3_mismatch_retried_counterexample :
    completeCrossChainSwap (fun l => l) stubSha1 (fun _ => .ok ['h']) (fun _ => none)
        (fun _ _ => .ok ['w']) mismatchEvent =
      .error "SHA1 hash verification failed - addresses do not match"
    ∧ (processCrossChainEvents 3 (fun _ =>
        completeCrossChainSwap (fun l => l) stubSha1 (fun _ => .ok ['h']) (fun _ => none)
          (fun _ _ => .ok ['w']) mismatchEvent)).2 = 3 :=
  ⟨rfl, rfl⟩

/-- C3 amended: the retry loop of `processCrossChainEvents` classifies no
failure as fatal; as long as every invocation of `completeCrossChainSwap`
fails - in particular when each fails with the SHA-1 mismatch error - the
loop re-invokes it until the entire configured retry budget is consumed and
then fails terminally. -/
theorem c3_amended_every_error_retried (retryAttempts : ℕ)
    (attemptOutcome : ℕ → Except String SwapResult)
    (h : ∀ i, ∃ msg, attemptOutcome i = .error msg) :
    (processCrossChainEvents retryAttempts attemptOutcome).2 = retryAttempts
    ∧ (processCrossChainEvents retryAttempts attemptOutcome).1 =
      .error "Cross-chain integration failed" := by
  unfold processCrossChainEvents
  rw [crossChainRetryLoop_all_error attemptOutcome h retryAttempts 0]
  simp

theorem c3_amended_every_error_retried_witness :
    (processCrossChainEvents 2 (fun _ =>
      .error "SHA1 hash verification failed - addresses do not match")).2 = 2 :=
  (c3_amended_every_error_retried 2 _ (fun _ => ⟨_, rfl⟩)).1

/-- C4: `verifySha1Hashes` round-trips over the commitment function: for any
digest function with lowercase-hex output and any event, if each supplied
commitment equals the recomputed commitment of the corresponding original
address - verbatim, with a redundant doubled `0x` prefix, or differing only
in hexadecimal letter case - then verification succeeds. -/
theorem c4_verify_commit_roundtrip (sha1hex : JStr → JStr)
    (hhex : ∀ s c, c ∈ sha1hex s → isHexLowerDigit c = true)
    (e : CrossChainEventData)
    (hr : e.receiverSha1 = commitSha1 sha1hex e.originalReceiverAddress
        ∨ e.receiverSha1 = '0' :: 'x' :: commitSha1 sha1hex e.originalReceiverAddress
        ∨ jsToLower e.receiverSha1 = commitSha1 sha1hex e.originalReceiverAddress)
    (ht : e.takerAssetSha1 = commitSha1 sha1hex e.originalTakerAssetAddress
        ∨ e.takerAssetSha1 = '0' :: 'x' :: commitSha1 sha1hex e.originalTakerAssetAddress
        ∨ jsToLower e.takerAssetSha1 = commitSha1 sha1hex e.originalTakerAssetAddress) :
    verifySha1Hashes sha1hex e = true := by
  unfold verifySha1Hashes
  rw [Bool.and_eq_true]
  exact ⟨commit_match_tolerant sha1hex hhex _ _ hr,
         commit_match_tolerant sha1hex hhex _ _ ht⟩

theorem c4_verify_commit_roundtrip_witness :
    verifySha1Hashes stubSha1 toleratedFormsEvent = true :=
  c4_verify_commit_roundtrip stubSha1
    (fun s c hc => by
      simp only [stubSha1, List.mem_cons, List.not_mem_nil, or_false] at hc
      rcases hc with rfl | rfl <;> decide)
    toleratedFormsEvent
    (Or.inr (Or.inl (by decide)))
    (Or.inr (Or.inr (by decide)))

/-- C5: the timelocks `deployDst` passes to `createDstEscrow` are anchored at
the source-chain `auctionStartTime`, not at the destination deployment time:
the base timestamp in the low 32 bits of the packed value always equals the
fusion order's `auctionStartTime`, and at the sample event (auction start
1700000000 on the source chain) it is exactly 1700000000 regardless of when
the destination leg is deployed - the destination clock never enters the
computation. -/
theorem c5_dst_timelocks_anchored_at_source_time :
    (deployDstImmutables 7 sampleFusionOrder).timelocks % 2 ^ 32 = 1700000000
    ∧ ∀ (resolverAddress : ℕ) (fusionOrder : FusionOrderEventData),
        (deployDstImmutables resolverAddress fusionOrder).timelocks % 2 ^ 32 =
          fusionOrder.auctionStartTime % 2 ^ 32 :=
  ⟨by decide, fun _ fusionOrder => createManualTimelocks_low32 fusionOrder.auctionStartTime⟩

/-- C6 counterexample: packing `createdAt = 2^32` does not fail validation;
`createManualTimelocks` returns normally and the oversized bit lands in the
adjacent 32-bit lane: the srcWithdrawal lane reads 11 instead of the packed
offset 10, and the base-timestamp lane reads 0. -/
theorem c6_overflow_overlaps_lane_counterexample :
    createManualTimelocks (2 ^ 32) % 2 ^ 32 = 0
    ∧ (createManualTimelocks (2 ^ 32) >>> 32) % 2 ^ 32 = 11 := by
  constructor <;> decide

/-- C6 amended: `createManualTimelocks` performs no range validation.  Within
the 32-bit range the packing is exact - the low 32 bits recover `deployedAt`
and the seven successive lanes recover the fixed offsets 10, 20, 121, 122,
10, 100, 101 - while a `createdAt ≥ 2^32` is packed as-is, its excess bits
silently overlapping the srcWithdrawal lane (see the counterexample). -/
theorem c6_amended_pack_exact_in_range (deployedAt : ℕ) (h : deployedAt < 2 ^ 32) :
    createManualTimelocks deployedAt % 2 ^ 32 = deployedAt
    ∧ (createManualTimelocks deployedAt >>> 32) % 2 ^ 32 = 10
    ∧ (createManualTimelocks deployedAt >>> 64) % 2 ^ 32 = 20
    ∧ (createManualTimelocks deployedAt >>> 96) % 2 ^ 32 = 121
    ∧ (createManualTimelocks deployedAt >>> 128) % 2 ^ 32 = 122
    ∧ (createManualTimelocks deployedAt >>> 160) % 2 ^ 32 = 10
    ∧ (createManualTimelocks deployedAt >>> 192) % 2 ^ 32 = 100
    ∧ (createManualTimelocks deployedAt >>> 224) % 2 ^ 32 = 101 := by
  rw [createManualTimelocks_closed deployedAt h]
  simp only [Nat.shiftRight_eq_div_pow]
  refine ⟨by omega, by omega, by omega, by omega, by omega, by omega, by omega, by omega⟩

theorem c6_amended_pack_exact_in_range_witness :
    createManualTimelocks 1700000000 % 2 ^ 32 = 1700000000
    ∧ (createManualTimelocks 1700000000 >>> 32) % 2 ^ 32 = 10
    ∧ (createManualTimelocks 1700000000 >>> 64) % 2 ^ 32 = 20
    ∧ (createManualTimelocks 1700000000 >>> 96) % 2 ^ 32 = 121
    ∧ (createManualTimelocks 1700000000 >>> 128) % 2 ^ 32 = 122
    ∧ (createManualTimelocks 1700000000 >>> 160) % 2 ^ 32 = 10
    ∧ (createManualTimelocks 1700000000 >>> 192) % 2 ^ 32 = 100
    ∧ (createManualTimelocks 1700000000 >>> 224) % 2 ^ 32 = 101 :=
  c6_amended_pack_exact_in_range 1700000000 (by decide)

/-- C7: `getSrcDeployEvent` is a bounded poll-with-backoff: it makes at most
5 log-query attempts; the delays inserted between consecutive attempts are
2000, 3000, 4000, 5000 ms, strictly increasing; for every k < 5, a provider
showing no matching logs on the first k attempts and the logs on attempt
k + 1 yields exactly the decoded result of the first log - the same result an
immediately-successful provider yields - using k + 1 attempts; and only when
all 5 attempts see no logs does it raise the terminal error. -/
theorem c7_poll_with_backoff :
    (∀ logsByHash logsByNumber : ℕ → List RawLog,
      srcDeployAttempts logsByHash logsByNumber ≤ 5)
    ∧ srcRetryDelays = [2000, 3000, 4000, 5000]
    ∧ List.Pairwise (· < ·) srcRetryDelays
    ∧ (∀ (logsByHash logsByNumber : ℕ → List RawLog) (k : ℕ), k < 5 →
        (∀ i, i < k → logsSeen logsByHash logsByNumber i = []) →
        ∀ l rest, logsSeen logsByHash logsByNumber k = l :: rest →
        getSrcDeployEvent logsByHash logsByNumber = .ok (decodeSrcEscrowLog l)
        ∧ getSrcDeployEvent logsByHash logsByNumber =
            getSrcDeployEvent (fun _ => logsSeen logsByHash logsByNumber k) (fun _ => [])
        ∧ srcDeployAttempts logsByHash logsByNumber = k + 1)
    ∧ (∀ logsByHash logsByNumber : ℕ → List RawLog,
        (∀ i, i < 5 → logsSeen logsByHash logsByNumber i = []) →
        getSrcDeployEvent logsByHash logsByNumber =
          .error "Failed to get SrcEscrowCreated event logs after 5 attempts") := by
  refine ⟨?_, by decide, by decide, ?_, ?_⟩
  · intro bh bn
    have hle := srcDeployLoop_attempts_le (logsSeen bh bn) 5 0
    simpa [srcDeployAttempts] using hle
  · intro bh bn k hk hempty l rest hhit
    have hmain := srcDeployLoop_first_hit (logsSeen bh bn) l rest k 0 5 hk
      (fun j hj => by simpa using hempty j hj) (by simpa using hhit)
    have himm : srcDeployLoop (logsSeen (fun _ => l :: rest) (fun _ => [])) 5 0 =
        (.ok (decodeSrcEscrowLog l), 0 + 1) :=
      srcDeployLoop_hit _ 4 0 l rest rfl
    refine ⟨?_, ?_, ?_⟩
    · rw [getSrcDeployEvent, hmain]
    · simp only [hhit]
      rw [getSrcDeployEvent, hmain, getSrcDeployEvent, himm]
    · rw [srcDeployAttempts, hmain]
      simp
  · intro bh bn hempty
    have hall := srcDeployLoop_all_empty (logsSeen bh bn) 5 0
      (fun j hj => by simpa using hempty j hj)
    rw [getSrcDeployEvent, hall]

theorem c7_poll_with_backoff_witness :
    getSrcDeployEvent (fun i => if i = 2 then [sampleRawLog] else []) (fun _ => []) =
      .ok (decodeSrcEscrowLog sampleRawLog)
    ∧ srcDeployAttempts (fun i => if i = 2 then [sampleRawLog] else []) (fun _ => []) = 3 := by
  have happ := c7_poll_with_backoff.2.2.2.1 (fun i => if i = 2 then [sampleRawLog] else [])
    (fun _ => []) 2 (by omega) (fun i hi => by interval_cases i <;> rfl)
    sampleRawLog [] rfl
  exact ⟨happ.1, happ.2.2⟩

/-- C8: the Auction Pricer (modelled from the spec, see `currentAmount`)
satisfies `currentAmount = max(min, initial - decayPerSecond * t)`: for
`initial ≥ min ≥ 0`, `decayPerSecond ≥ 0` and `0 ≤ t ≤ t2` the amount stays
between `min` and `initial` and is non-increasing in elapsed time, and in the
concrete scenario (initial 102, floor 98, decay 0.2/sec) the amount at t = 10
is exactly 100 and at t = 20 it is the floor 98. -/
theorem c8_auction_pricer (initial minAmount decayPerSecond t t2 : ℚ)
    (hmin : 0 ≤ minAmount) (hinit : minAmount ≤ initial) (hdecay : 0 ≤ decayPerSecond)
    (ht : 0 ≤ t) (htt : t ≤ t2) :
    minAmount ≤ currentAmount initial minAmount decayPerSecond t
    ∧ currentAmount initial minAmount decayPerSecond t ≤ initial
    ∧ currentAmount initial minAmount decayPerSecond t2 ≤
      currentAmount initial minAmount decayPerSecond t
    ∧ currentAmount 102 98 (1 / 5) 10 = 100
    ∧ currentAmount 102 98 (1 / 5) 20 = 98 := by
  refine ⟨le_max_left _ _, ?_, ?_, ?_, ?_⟩
  · apply max_le hinit
    have hdt : 0 ≤ decayPerSecond * t := mul_nonneg hdecay ht
    linarith
  · apply max_le_max le_rfl
    have hmul : decayPerSecond * t ≤ decayPerSecond * t2 :=
      mul_le_mul_of_nonneg_left htt hdecay
    linarith
  · rw [currentAmount, max_eq_right] <;> norm_num
  · rw [currentAmount, max_eq_left] <;> norm_num

theorem c8_auction_pricer_witness :
    (98 : ℚ) ≤ currentAmount 102 98 (1 / 5) 10
    ∧ currentAmount 102 98 (1 / 5) 10 ≤ 102
    ∧ currentAmount 102 98 (1 / 5) 20 ≤ currentAmount 102 98 (1 / 5) 10
    ∧ currentAmount 102 98 (1 / 5) 10 = 100
    ∧ currentAmount 102 98 (1 / 5) 20 = 98 :=
  c8_auction_pricer 102 98 (1 / 5) 10 20 (by norm_num) (by norm_num) (by norm_num)
    (by norm_num) (by norm_num)

/-- C9: when escrow creation succeeded but the destination withdrawal leg
cannot be progressed - the escrow address could not be determined from the
creation transaction's events, or the withdrawal call fails -
`completeCrossChainSwap` returns partial success: an `ok` result carrying the
successful creation transaction hash with `withdrawTxHash` absent, instead of
raising. -/
theorem c9_partial_success_on_stuck_withdrawal (keccak256 : List ℕ → List ℕ)
    (sha1hex : JStr → JStr)
    (submitTransaction : EscrowPayload → Except String JStr)
    (getEscrowObjectAddress : JStr → Option JStr)
    (withdrawFromDestinationEscrow : JStr → JStr → Except String JStr)
    (e : CrossChainEventData) (created : CreateEscrowResult)
    (hc : (createDestinationEscrow keccak256 sha1hex submitTransaction
            getEscrowObjectAddress e).1 = .ok created) :
    (created.escrowAddress = none →
      completeCrossChainSwap keccak256 sha1hex submitTransaction getEscrowObjectAddress
        withdrawFromDestinationEscrow e =
      .ok { createTxHash := created.txHash, withdrawTxHash := none, escrowAddress := none })
    ∧ (∀ addr msg, created.escrowAddress = some addr →
        withdrawFromDestinationEscrow addr e.secret = .error msg →
        completeCrossChainSwap keccak256 sha1hex submitTransaction getEscrowObjectAddress
          withdrawFromDestinationEscrow e =
        .ok { createTxHash := created.txHash, withdrawTxHash := none,
              escrowAddress := some addr }) := by
  rw [completeCrossChainSwap_eq keccak256 sha1hex submitTransaction getEscrowObjectAddress
    withdrawFromDestinationEscrow e created hc]
  constructor
  · intro hnone
    simp only [hnone]
  · intro addr msg ha hw
    simp only [ha, hw]

theorem c9_partial_success_on_stuck_withdrawal_witness :
    completeCrossChainSwap (fun l => l) stubSha1 (fun _ => .ok ['h']) (fun _ => none)
      (fun _ _ => .error "withdraw failed") matchingEvent =
    .ok { createTxHash := ['h'], withdrawTxHash := none, escrowAddress := none } :=
  (c9_partial_success_on_stuck_withdrawal (fun l => l) stubSha1 (fun _ => .ok ['h'])
    (fun _ => none) (fun _ _ => .error "withdraw failed") matchingEvent
    { txHash := ['h'], escrowAddress := none } rfl).1 rfl

/-- C10: the escrow amount is submitted as `Number(eventData.amount)`,
embedded as `jsNumberOfBigint`: the payload amount always equals
`jsNumberOfBigint amount` (no size check, no rejection); for every amount up
to 2^53 - 1 the submitted value equals the amount exactly; for every larger
amount the submitted value is a representable double (a significand below
2^53 times a power of two) within half an ulp of the amount - silently
rounded, as witnessed concretely by 2^53 + 1 mapping to 2^53. -/
theorem c10_amount_number_conversion (e : CrossChainEventData) :
    (escrowPayloadTests e).amount = jsNumberOfBigint e.amount
    ∧ (∀ keccak256 : List ℕ → List ℕ,
        (escrowPayloadKeccak keccak256 e).amount = jsNumberOfBigint e.amount)
    ∧ (e.amount ≤ 2 ^ 53 - 1 → (escrowPayloadTests e).amount = e.amount)
    ∧ (2 ^ 53 - 1 < e.amount →
        (∃ s ex, s < 2 ^ 53 ∧ (escrowPayloadTests e).amount = s * 2 ^ ex)
        ∧ 2 * ((e.amount - (escrowPayloadTests e).amount)
             + ((escrowPayloadTests e).amount - e.amount)) ≤ 2 ^ (natLog2 e.amount - 52))
    ∧ jsNumberOfBigint (2 ^ 53 + 1) = 2 ^ 53 := by
  have h0 : (escrowPayloadTests e).amount = jsNumberOfBigint e.amount := rfl
  refine ⟨rfl, fun _ => rfl, ?_, ?_, by decide⟩
  · intro hsmall
    rw [h0, jsNumberOfBigint, if_pos (by omega)]
  · intro hbig
    have hn : 2 ^ 53 ≤ e.amount := by omega
    have hb := natLog2_bounds e.amount (by omega)
    have hl53 : 53 ≤ natLog2 e.amount := by
      by_contra hc
      push_neg at hc
      have hle : natLog2 e.amount + 1 ≤ 53 := by omega
      have hpow : (2 : ℕ) ^ (natLog2 e.amount + 1) ≤ 2 ^ 53 :=
        Nat.pow_le_pow_right (by norm_num) hle
      omega
    have hjs : jsNumberOfBigint e.amount =
        roundNearestEven e.amount (natLog2 e.amount - 52) := by
      rw [jsNumberOfBigint, if_neg (by omega)]
    have hP : (0 : ℕ) < 2 ^ (natLog2 e.amount - 52) := Nat.two_pow_pos _
    have hq : e.amount / 2 ^ (natLog2 e.amount - 52) < 2 ^ 53 := by
      rw [Nat.div_lt_iff_lt_mul hP]
      have hpow : (2 : ℕ) ^ 53 * 2 ^ (natLog2 e.amount - 52) = 2 ^ (natLog2 e.amount + 1) := by
        rw [← pow_add]
        congr 1
        omega
      rw [hpow]
      exact hb.2
    constructor
    · rcases roundNE_cases e.amount (natLog2 e.amount - 52) with hcase | hcase
      · exact ⟨e.amount / 2 ^ (natLog2 e.amount - 52), natLog2 e.amount - 52, hq,
          by rw [h0, hjs, hcase]; ring⟩
      · by_cases htop : e.amount / 2 ^ (natLog2 e.amount - 52) + 1 = 2 ^ 53
        · refine ⟨2 ^ 52, natLog2 e.amount - 51, by norm_num, ?_⟩
          rw [h0, hjs, hcase, htop, ← pow_add, ← pow_add]
          congr 1
          omega
        · exact ⟨e.amount / 2 ^ (natLog2 e.amount - 52) + 1, natLog2 e.amount - 52,
            by omega, by rw [h0, hjs, hcase]; ring⟩
    · rw [h0, hjs]
      exact roundNE_dist e.amount (natLog2 e.amount - 52)

theorem c10_amount_number_conversion_witness :
    (escrowPayloadTests matchingEvent).amount = matchingEvent.amount
    ∧ 2 * ((hugeAmountEvent.amount - (escrowPayloadTests hugeAmountEvent).amount)
         + ((escrowPayloadTests hugeAmountEvent).amount - hugeAmountEvent.amount)) ≤
      2 ^ (natLog2 hugeAmountEvent.amount - 52) :=
  ⟨(c10_amount_number_conversion matchingEvent).2.2.1 (by norm_num [matchingEvent]),
   ((c10_amount_number_conversion hugeAmountEvent).2.2.2.1
     (by norm_num [hugeAmountEvent])).2⟩
